import Mathlib

/-!
Verification of the text measurement engine `gutenberg_word_count`
(`lib/compat/wordpress-6.2/formatting.php`).

Strings are modelled as lists of UTF-16 code units (`Str := List Nat`);
every input appearing below is ASCII, so code units, bytes and code points
coincide on them.  Each PCRE pattern that the function uses is modelled by
the leftmost-match function it compiles to: a function `Str → Option Nat`
that, applied to a suffix of the subject, returns the length of the match
the pattern prefers at that position (lazy quantifiers prefer the shortest
expansion, greedy ones the longest, alternations are tried left to right),
or `none` when no match starts there.  `preg_replace` and `preg_match_all`
then scan the subject left to right, at each position either consuming the
preferred match or moving one unit forward, exactly as the PCRE engine does
for the patterns at hand (none of which can match the empty string).
-/

/-- A string, as the sequence of its UTF-16 code units. -/
abbrev Str := List Nat

/-- Membership of a code unit in the PCRE (non-Unicode) class `\s`:
space, tab, newline, carriage return, form feed, vertical tab. -/
def isPcreSpace (c : Nat) : Bool :=
  c = 32 || c = 9 || c = 10 || c = 13 || c = 12 || c = 11

/-- ASCII letter test for `[a-z]` under the `i` flag. -/
def isAsciiAlpha (c : Nat) : Bool :=
  (65 ≤ c && c ≤ 90) || (97 ≤ c && c ≤ 122)

/-- Lower-case an ASCII letter code unit; other units are unchanged.
Used to model the `i` (caseless) pattern flag. -/
def lowerAscii (c : Nat) : Nat :=
  if 65 ≤ c && c ≤ 90 then c + 32 else c

/-- A PCRE pattern as handed to the preg functions.

`delimited m` is a well-formed pattern enclosed in delimiters (all the
default patterns of the source are, e.g. `/\S\s+/`); it is represented by
the leftmost-match function `m` it compiles to.

`undelimited m` is a pattern string whose first character is not an
acceptable PCRE delimiter — PHP refuses alphanumerics and the backslash as
delimiters — so compilation fails, and every preg call on the pattern
raises a warning and returns its error value (`null` for `preg_replace`,
`false` for `preg_match_all`).  The payload `m` records the matcher the
pattern text would denote were it properly delimited; the preg functions
never consult it.

`unicodeRejected m` is a properly delimited pattern whose body PCRE
nevertheless refuses to compile: a `\x` brace escape naming a surrogate
code point U+D800 to U+DFFF is disallowed in a pattern carrying the `u`
flag (PHP leaves such escapes for PCRE to interpret, and PHP never sets
the PCRE option that would permit surrogate escapes), so every preg call
fails exactly as for `undelimited`.  The payload `m` again records the
matcher the pattern text intends and is never consulted. -/
inductive Regexp where
  | delimited (m : Str → Option Nat)
  | undelimited (m : Str → Option Nat)
  | unicodeRejected (m : Str → Option Nat)

/-- Fuel-indexed worker for `replaceAll`.  At each position, if the matcher
accepts a (necessarily non-empty) match of length `n + 1`, emit the
replacement and resume after the match; otherwise keep the unit and move
one position forward.  The fuel is only a structural-recursion device:
`replaceAll` supplies fuel equal to the length of the subject, which the
scan never exhausts since every step consumes at least one unit. -/
def replaceAllFuel (m : Str → Option Nat) (repl : Str) : Nat → Str → Str
  | _, [] => []
  | 0, s => s
  | fuel + 1, c :: rest =>
    match m (c :: rest) with
    | some (n + 1) => repl ++ replaceAllFuel m repl fuel (rest.drop n)
    | _ => c :: replaceAllFuel m repl fuel rest

/-- Replace every non-overlapping leftmost match of `m` in `s` by `repl`
(the behaviour of `preg_replace` on a compiled pattern). -/
def replaceAll (m : Str → Option Nat) (repl : Str) (s : Str) : Str :=
  replaceAllFuel m repl s.length s

/-- Fuel-indexed worker for `countMatches`; same scanning discipline as
`replaceAllFuel`. -/
def countMatchesFuel (m : Str → Option Nat) : Nat → Str → Nat
  | _, [] => 0
  | 0, _ => 0
  | fuel + 1, c :: rest =>
    match m (c :: rest) with
    | some (n + 1) => 1 + countMatchesFuel m fuel (rest.drop n)
    | _ => countMatchesFuel m fuel rest

/-- Number of non-overlapping leftmost matches of `m` in `s` (the size of
`$matches[0]` after `preg_match_all` on a compiled pattern). -/
def countMatches (m : Str → Option Nat) (s : Str) : Nat :=
  countMatchesFuel m s.length s

/-- Matcher of the default `html_regexp` (line 42): `<`, an optional `/`,
an ASCII letter (caseless), then lazily any units other than `>` up to the
first `>`.  When the unit after an initial `</` is not a letter the whole
pattern fails at this position: backtracking the optional `/` leaves `/`
itself in letter position, which also fails. -/
def htmlMatch : Str → Option Nat
  | 60 :: 47 :: c :: rest =>
    if isAsciiAlpha c then (rest.findIdx? (fun d => d = 62)).map (fun j => j + 4) else none
  | 60 :: c :: rest =>
    if isAsciiAlpha c then (rest.findIdx? (fun d => d = 62)).map (fun j => j + 3) else none
  | _ => none

/-- Index of the first position of `s` at which `pat` occurs as a prefix. -/
def findSub (pat : Str) : Str → Option Nat
  | [] => if pat.isPrefixOf ([] : Str) then some 0 else none
  | c :: rest =>
    if pat.isPrefixOf (c :: rest) then some 0 else (findSub pat rest).map (· + 1)

/-- Matcher of the default `html_comment_regexp` (line 43): `<!--`, then
lazily anything up to the first following `-->`. -/
def htmlCommentMatch : Str → Option Nat
  | 60 :: 33 :: 45 :: 45 :: rest => (findSub [45, 45, 62] rest).map (fun j => j + 7)
  | _ => none

/-- Matcher of the default `space_regexp` (line 44): the literal `&nbsp;`
(caseless) or the literal `&#160;`, both six units long. -/
def spaceMatch : Str → Option Nat
  | a :: b :: c :: d :: e :: f :: _ =>
    if a = 38 && lowerAscii b = 110 && lowerAscii c = 98 && lowerAscii d = 115 &&
        lowerAscii e = 112 && f = 59 then some 6
    else if a = 38 && b = 35 && c = 49 && d = 54 && e = 48 && f = 59 then some 6
    else none
  | _ => none

/-- Tail of the default `html_entity_regexp` after its initial `&`: the
lazy `\S+?;` prefers the fewest non-space units (at least one) followed by
a `;`.  Returns the total length consumed after the `&`, or `none` when a
space unit is reached or the string ends before a closing `;`. -/
def entityTail : Str → Option Nat
  | [] => none
  | c :: rest =>
    if isPcreSpace c then none
    else if rest.head? = some 59 then some 2
    else (entityTail rest).map (· + 1)

/-- Matcher of the default `html_entity_regexp` (line 45): `&\S+?;`. -/
def htmlEntityMatch : Str → Option Nat
  | 38 :: rest => (entityTail rest).map (· + 1)
  | _ => none

/-- Matcher of the default `connector_regexp` (line 46): a literal `--` or
the em dash U+2014, alternatives tried in that order. -/
def connectorMatch : Str → Option Nat
  | 45 :: 45 :: _ => some 2
  | 8212 :: _ => some 1
  | _ => none

/-- Membership in the character class of the default `remove_regexp`
(line 47): U+0021 to U+0040, U+005B to U+0060, U+007B to U+007E, U+0080 to
U+00BF, U+00D7, U+00F7, U+2000 to U+2BFF, U+2E00 to U+2E7F. -/
def isRemoveChar (c : Nat) : Bool :=
  (33 ≤ c && c ≤ 64) || (91 ≤ c && c ≤ 96) || (123 ≤ c && c ≤ 126) ||
  (128 ≤ c && c ≤ 191) || c = 215 || c = 247 ||
  (8192 ≤ c && c ≤ 11263) || (11776 ≤ c && c ≤ 11903)

/-- Matcher of the default `remove_regexp` (line 47): one unit of the
removal class. -/
def removeMatch : Str → Option Nat
  | c :: _ => if isRemoveChar c then some 1 else none
  | _ => none

/-- Matcher intended by the text of the default `astral_regexp` (line 48):
a high surrogate U+D800 to U+DBFF immediately followed by a low surrogate
U+DC00 to U+DFFF.  In the PHP source the pattern never compiles (its
surrogate `\x` brace escapes are disallowed under the `u` flag), so this
matcher is only what the pattern would denote — and what the JS original
the line was ported from actually runs. -/
def astralMatch : Str → Option Nat
  | c :: d :: _ =>
    if 55296 ≤ c && c ≤ 56319 && 56320 ≤ d && d ≤ 57343 then some 2 else none
  | _ => none

/-- Length of the maximal run of `\s` units at the head of the string. -/
def countLeadingSpaces : Str → Nat
  | [] => 0
  | c :: rest => if isPcreSpace c then countLeadingSpaces rest + 1 else 0

/-- Matcher of the default `words_regexp` (line 49): `\S\s+`, one
non-space unit followed greedily by at least one space unit. -/
def wordsMatch : Str → Option Nat
  | [] => none
  | c :: rest =>
    if isPcreSpace c then none
    else
      match countLeadingSpaces rest with
      | 0 => none
      | k + 1 => some (k + 2)

/-- Matcher of the default `characters_excluding_spaces_regexp` (line 50):
`\S`, one non-space unit. -/
def charsExclMatch : Str → Option Nat
  | c :: _ => if isPcreSpace c then none else some 1
  | _ => none

/-- Matcher of the default `characters_including_spaces_regexp` (line 51):
any one unit other than form feed, newline, carriage return, tab, vertical
tab, soft hyphen U+00AD, or the separators U+2028 and U+2029. -/
def charsInclMatch : Str → Option Nat
  | c :: _ =>
    if c = 12 || c = 10 || c = 13 || c = 9 || c = 11 || c = 173 || c = 8232 || c = 8233
    then none else some 1
  | _ => none

/-- Alternation body of the derived shortcodes pattern: try each listed tag
name in order; a name succeeds when it is a prefix of the remaining text
and a `]` occurs somewhere after it (the lazy `[^\]]*?\]` then ends the
match at the first such `]`); otherwise the next alternative is tried. -/
def tryNames (names : List Str) (t : Str) : Option Nat :=
  match names with
  | [] => none
  | n :: rest =>
    if n.isPrefixOf t then
      match (t.drop n.length).findIdx? (fun d => d = 93) with
      | some j => some (n.length + j + 1)
      | none => tryNames rest t
    else tryNames rest t

/-- Matcher denoted by the text of the derived shortcodes pattern
(line 64), `\[\/?(?:name1|name2|...)[^\]]*?\]`: a `[`, a greedy optional
`/`, one of the listed names, then lazily anything up to the first `]`.
The greedy `\/?` first consumes a `/` when present and backtracks to the
empty expansion when no alternative completes after it. -/
def shortcodeMatch (names : List Str) : Str → Option Nat
  | 91 :: 47 :: rest =>
    match tryNames names rest with
    | some k => some (k + 2)
    | none => (tryNames names (47 :: rest)).map (· + 1)
  | 91 :: rest => (tryNames names rest).map (· + 1)
  | _ => none

/-- The `$settings` array once `wp_parse_args` has filled the defaults in:
the ten base patterns are always present; `shortcodes_regexp` and
`shortcodes` are present exactly when the caller supplied them (no default
provides either). -/
structure Settings where
  html_regexp : Regexp
  html_comment_regexp : Regexp
  space_regexp : Regexp
  html_entity_regexp : Regexp
  connector_regexp : Regexp
  remove_regexp : Regexp
  astral_regexp : Regexp
  words_regexp : Regexp
  characters_excluding_spaces_regexp : Regexp
  characters_including_spaces_regexp : Regexp
  shortcodes_regexp : Option Regexp
  shortcodes : Option (List Str)

/-- The caller-supplied `$settings` argument: any subset of the keys may be
given (each pattern override modelled, like the defaults, by the matcher it
compiles to). -/
structure SettingsArgs where
  html_regexp : Option Regexp
  html_comment_regexp : Option Regexp
  space_regexp : Option Regexp
  html_entity_regexp : Option Regexp
  connector_regexp : Option Regexp
  remove_regexp : Option Regexp
  astral_regexp : Option Regexp
  words_regexp : Option Regexp
  characters_excluding_spaces_regexp : Option Regexp
  characters_including_spaces_regexp : Option Regexp
  shortcodes_regexp : Option Regexp
  shortcodes : Option (List Str)

/-- Line 60, `wp_parse_args( $settings, $defaults )`: key-by-key merge of
the caller arguments over the `$defaults` table of lines 41 to 52.  Keys
absent from the defaults (`shortcodes_regexp`, `shortcodes`) survive the
merge exactly as supplied.  The default `astral_regexp` of line 48 writes
the surrogate ranges with `\x` brace escapes inside a `u`-flagged pattern,
which PCRE refuses to compile, so it is recorded as
`Regexp.unicodeRejected`; every other default compiles. -/
def wp_parse_args (a : SettingsArgs) : Settings :=
  Settings.mk
    (a.html_regexp.getD (Regexp.delimited htmlMatch))
    (a.html_comment_regexp.getD (Regexp.delimited htmlCommentMatch))
    (a.space_regexp.getD (Regexp.delimited spaceMatch))
    (a.html_entity_regexp.getD (Regexp.delimited htmlEntityMatch))
    (a.connector_regexp.getD (Regexp.delimited connectorMatch))
    (a.remove_regexp.getD (Regexp.delimited removeMatch))
    (a.astral_regexp.getD (Regexp.unicodeRejected astralMatch))
    (a.words_regexp.getD (Regexp.delimited wordsMatch))
    (a.characters_excluding_spaces_regexp.getD (Regexp.delimited charsExclMatch))
    (a.characters_including_spaces_regexp.getD (Regexp.delimited charsInclMatch))
    a.shortcodes_regexp
    a.shortcodes

/-- Lines 62 to 65: when `shortcodes` is set and is an array (of any
length, empty included), `shortcodes_regexp` is overwritten with the
synthesized string `\[\/?(?:` + names joined by `|` + `)[^\]]*?\]`.  That
string starts with a backslash, which PHP rejects as a pattern delimiter,
so the synthesized pattern never compiles: it is recorded as
`Regexp.undelimited` carrying the matcher its text would denote.  When
`shortcodes` is absent, whatever `shortcodes_regexp` the caller supplied
(or nothing) is kept. -/
def resolvedShortcodesRegexp (args : SettingsArgs) : Option Regexp :=
  match (wp_parse_args args).shortcodes with
  | some names => some (Regexp.undelimited (shortcodeMatch names))
  | none => (wp_parse_args args).shortcodes_regexp

/-- Code units of "words". -/
def wordsStr : Str := [119, 111, 114, 100, 115]

/-- Code units of "characters_excluding_spaces". -/
def charsExclStr : Str :=
  [99, 104, 97, 114, 97, 99, 116, 101, 114, 115, 95, 101, 120, 99, 108, 117,
   100, 105, 110, 103, 95, 115, 112, 97, 99, 101, 115]

/-- Code units of "characters_including_spaces". -/
def charsInclStr : Str :=
  [99, 104, 97, 114, 97, 99, 116, 101, 114, 115, 95, 105, 110, 99, 108, 117,
   100, 105, 110, 103, 95, 115, 112, 97, 99, 101, 115]

/-- Lines 67 to 70: sanitize `$type` to one of the three recognized values,
anything other than the two character-count strings becoming `words`. -/
def sanitizeType (ty : Str) : Str :=
  if ty = charsExclStr ∨ ty = charsInclStr then ty else wordsStr

/-- Line 56, `if ( ! $text )`: PHP truthiness of a string subject — only
the empty string and the one-character string "0" are falsy. -/
def phpFalsy (s : Str) : Bool := s == [] || s == [48]

/-- `preg_replace` on an optional-string subject (PHP `$text` can hold
`null` after a failed earlier call): a compiled pattern replaces every
match in the subject, a `null` subject being coerced to the empty string;
an uncompilable pattern makes the call itself fail and return `null`. -/
def pregReplace (r : Regexp) (repl : Str) (subject : Option Str) : Option Str :=
  match r with
  | Regexp.delimited m => some (replaceAll m repl (subject.getD []))
  | Regexp.undelimited _ => none
  | Regexp.unicodeRejected _ => none

/-- Lines 107 to 114: `preg_match_all` with the selected pattern followed
by `count( $matches[0] )`.  A compiled pattern yields the number of its
matches in the subject (`null` coerced to the empty string; zero matches
leave `$matches` a truthy `array( array() )`, so `count` returns 0).  An
uncompilable pattern makes `preg_match_all` fail without filling
`$matches`, and the falsy `$matches` guard returns the initial `$count` of
0. -/
def pregMatchAllCount (r : Regexp) (subject : Option Str) : Nat :=
  match r with
  | Regexp.delimited m => countMatches m (subject.getD [])
  | Regexp.undelimited _ => 0
  | Regexp.unicodeRejected _ => 0

/-- Line 107, `$settings[ $type . '_regexp' ]` for the three sanitized type
values. -/
def typeRegexp (s : Settings) (type : Str) : Regexp :=
  if type = charsExclStr then s.characters_excluding_spaces_regexp
  else if type = charsInclStr then s.characters_including_spaces_regexp
  else s.words_regexp

/-- Lines 72 to 114, the normalization pipeline and the final count, run on
the resolved settings and the already sanitized type: append a newline;
replace HTML with a newline; delete HTML comments; when a shortcodes
pattern is present replace its matches with a newline; normalize the
non-breaking-space entities to a space; then branch — for `words` delete
entities, turn connectors into spaces and delete the removal class, for the
character counts turn entities and surrogate pairs into the letter `a`  —
and count the matches of the pattern selected by the type. -/
def normalizeAndCount (text : Str) (type : Str) (s : Settings) (sc : Option Regexp) : Nat :=
  let t0 : Option Str := some (text ++ [10])
  let t1 := pregReplace s.html_regexp [10] t0
  let t2 := pregReplace s.html_comment_regexp [] t1
  let t3 :=
    match sc with
    | some r => pregReplace r [10] t2
    | none => t2
  let t4 := pregReplace s.space_regexp [32] t3
  let t5 :=
    if type = wordsStr then
      pregReplace s.remove_regexp []
        (pregReplace s.connector_regexp [32]
          (pregReplace s.html_entity_regexp [] t4))
    else
      pregReplace s.astral_regexp [97]
        (pregReplace s.html_entity_regexp [97] t4)
  pregMatchAllCount (typeRegexp s type) t5

/-- The function `gutenberg_word_count( $text, $type, $settings )` of
`lib/compat/wordpress-6.2/formatting.php`: return 0 on a falsy `$text`,
otherwise resolve the settings and the shortcodes pattern, sanitize the
type, and run the normalization pipeline and the count. -/
def gutenberg_word_count (text ty : Str) (args : SettingsArgs) : Nat :=
  if phpFalsy text then 0
  else
    normalizeAndCount text (sanitizeType ty) (wp_parse_args args)
      (resolvedShortcodesRegexp args)

/-- The caller-settings value with no key supplied. -/
def noArgs : SettingsArgs :=
  SettingsArgs.mk none none none none none none none none none none none none

/-- Code units of "hello world". -/
def helloWorldStr : Str := [104, 101, 108, 108, 111, 32, 119, 111, 114, 108, 100]

/-- Code units of "hello<br>world". -/
def helloBrWorldStr : Str :=
  [104, 101, 108, 108, 111, 60, 98, 114, 62, 119, 111, 114, 108, 100]

/-- Code units of "hello<!-- x -->world". -/
def helloCommentWorldStr : Str :=
  [104, 101, 108, 108, 111, 60, 33, 45, 45, 32, 120, 32, 45, 45, 62, 119, 111, 114, 108, 100]

/-- Code units of "well--done". -/
def wellDDoneStr : Str := [119, 101, 108, 108, 45, 45, 100, 111, 110, 101]

/-- Code units of "well-done". -/
def wellDoneStr : Str := [119, 101, 108, 108, 45, 100, 111, 110, 101]

/-- Code units of "a&amp;b". -/
def aAmpBStr : Str := [97, 38, 97, 109, 112, 59, 98]

/-- Code units of "lonelyword". -/
def lonelywordStr : Str := [108, 111, 110, 101, 108, 121, 119, 111, 114, 100]

/-- Code units of "before[gallery id=1]after". -/
def beforeGalleryAfterStr : Str :=
  [98, 101, 102, 111, 114, 101, 91, 103, 97, 108, 108, 101, 114, 121, 32, 105,
   100, 61, 49, 93, 97, 102, 116, 101, 114]

/-- Code units of "gallery". -/
def galleryStr : Str := [103, 97, 108, 108, 101, 114, 121]

/-- Code units of "aqb". -/
def aqbStr : Str := [97, 113, 98]

/-- The caller-settings value supplying only `shortcodes = array( "gallery" )`. -/
def galleryArgs : SettingsArgs :=
  SettingsArgs.mk none none none none none none none none none none none
    (some [galleryStr])

/-- The caller-settings value supplying only `shortcodes = array()`. -/
def emptyShortcodesArgs : SettingsArgs :=
  SettingsArgs.mk none none none none none none none none none none none
    (some [])

/-- Matcher of a well-formed caller-supplied shortcodes pattern such as
`/q/`: it matches the single letter q. -/
def qMatch : Str → Option Nat
  | 113 :: _ => some 1
  | _ => none

/-- The caller-settings value supplying only a direct `shortcodes_regexp`
override (the compiled `/q/` of `qMatch`), with no `shortcodes` array. -/
def qOverrideArgs : SettingsArgs :=
  SettingsArgs.mk none none none none none none none none none none
    (some (Regexp.delimited qMatch)) none

/-- What `gutenberg_word_count` would return on "before[gallery id=1]after"
with `shortcodes = array( "gallery" )` if the synthesized shortcodes
pattern were wrapped in delimiters as its text intends (the JS original
builds the same text as a compiled `RegExp`): the shortcode is replaced by
a newline and the surrounding words stay separate. -/
def countWithDelimitedShortcodes (text ty : Str) (names : List Str) : Nat :=
  if phpFalsy text then 0
  else
    normalizeAndCount text (sanitizeType ty) (wp_parse_args noArgs)
      (some (Regexp.delimited (shortcodeMatch names)))

/-- The default settings as they would resolve if the astral pattern of
line 48 compiled to the matcher its text intends (as the same pattern does
as a JS `RegExp` in the original this line was ported from). -/
def defaultsWithCompiledAstral : Settings :=
  Settings.mk (Regexp.delimited htmlMatch) (Regexp.delimited htmlCommentMatch)
    (Regexp.delimited spaceMatch) (Regexp.delimited htmlEntityMatch)
    (Regexp.delimited connectorMatch) (Regexp.delimited removeMatch)
    (Regexp.delimited astralMatch) (Regexp.delimited wordsMatch)
    (Regexp.delimited charsExclMatch) (Regexp.delimited charsInclMatch)
    none none

/-- What `gutenberg_word_count` with no overrides would return if the
default astral pattern compiled: used to state the counts the code
intends next to the ones it produces. -/
def countWithCompiledAstral (text ty : Str) : Nat :=
  if phpFalsy text then 0
  else normalizeAndCount text (sanitizeType ty) defaultsWithCompiledAstral none

/-- C1: for every text and every settings value, a count type other than
the two recognized character-count strings yields exactly the result of
counting with type `words`: the type only reaches the pipeline through the
sanitization of lines 67 to 70, which maps every such value to `words`. -/
theorem c1_unrecognized_type_counts_as_words (text ty : Str) (args : SettingsArgs)
    (h1 : ty ≠ charsExclStr) (h2 : ty ≠ charsInclStr) :
    gutenberg_word_count text ty args = gutenberg_word_count text wordsStr args := by
  have hs : sanitizeType ty = wordsStr := by
    simp [sanitizeType, h1, h2]
  have hw : sanitizeType wordsStr = wordsStr := by decide
  unfold gutenberg_word_count
  rw [hs, hw]

/-- Witness for C1 at text "hello world", type "x", no overrides. -/
theorem c1_witness :
    gutenberg_word_count helloWorldStr [120] noArgs =
      gutenberg_word_count helloWorldStr wordsStr noArgs :=
  c1_unrecognized_type_counts_as_words helloWorldStr [120] noArgs
    (by decide) (by decide)

/-- C2: for every count type and every settings value, the count of the
empty string is 0 — the falsy-text guard of line 56 returns before any
settings resolution or normalization step can run, so no choice of
overrides can influence the result. -/
theorem c2_empty_text_counts_zero (ty : Str) (args : SettingsArgs) :
    gutenberg_word_count [] ty args = 0 := rfl

/-- C3: the code meets the claim only for the word count.  With default
rules "hello world" counts 2 words, but both character counts are 0, not
the claimed 10 and 11: the default `astral_regexp` of line 48 does not
compile (surrogate `\x` brace escapes under the `u` flag), so the
`preg_replace` of line 104 returns null and the final match runs on the
empty string.  Were the astral pattern compiled as its text intends, the
counts would be the claimed 10 and 11. -/
theorem c3_character_counts_zeroed_by_astral_pattern :
    gutenberg_word_count helloWorldStr wordsStr noArgs = 2 ∧
    gutenberg_word_count helloWorldStr charsExclStr noArgs = 0 ∧
    gutenberg_word_count helloWorldStr charsInclStr noArgs = 0 ∧
    countWithCompiledAstral helloWorldStr charsExclStr = 10 ∧
    countWithCompiledAstral helloWorldStr charsInclStr = 11 := by decide

/-- C4: with default rules an HTML tag is replaced by a newline while an
HTML comment is deleted outright, so "hello<br>world" counts 2 words and
"hello<!-- x -->world" counts 1. -/
theorem c4_tags_separate_comments_fuse :
    replaceAll htmlMatch [10] helloBrWorldStr =
      [104, 101, 108, 108, 111, 10, 119, 111, 114, 108, 100] ∧
    replaceAll htmlCommentMatch [] helloCommentWorldStr =
      [104, 101, 108, 108, 111, 119, 111, 114, 108, 100] ∧
    gutenberg_word_count helloBrWorldStr wordsStr noArgs = 2 ∧
    gutenberg_word_count helloCommentWorldStr wordsStr noArgs = 1 := by decide

/-- C5: with default rules the double hyphen is a connector turned into a
space while the single hyphen, U+002D inside the removal band U+0021 to
U+0040, is stripped: "well--done" counts 2 words, "well-done" counts 1. -/
theorem c5_double_hyphen_splits_single_is_stripped :
    isRemoveChar 45 = true ∧
    gutenberg_word_count wellDDoneStr wordsStr noArgs = 2 ∧
    gutenberg_word_count wellDoneStr wordsStr noArgs = 1 := by decide

/-- C6: the entity step itself behaves as the claim states — every HTML
entity match is replaced by the single letter a, so "a&amp;b" normalizes to
"aab" — but the full count of "a&amp;b" including spaces is 0, not the
claimed 3: the astral step that follows (line 104) uses the uncompilable
default `astral_regexp` of line 48, nulls the text, and the final match
runs on the empty string.  Were the astral pattern compiled as its text
intends, the count would be the claimed 3. -/
theorem c6_entity_count_zeroed_by_astral_pattern :
    replaceAll htmlEntityMatch [97] aAmpBStr = [97, 97, 98] ∧
    gutenberg_word_count aAmpBStr charsInclStr noArgs = 0 ∧
    countWithCompiledAstral aAmpBStr charsInclStr = 3 := by decide

/-- C7: the newline appended at line 72 delimits a trailing word: the words
pattern `\S\s+` finds no match in "lonelyword" alone, one match once the
newline is appended, and the full count of "lonelyword" is 1. -/
theorem c7_trailing_word_counted :
    countMatches wordsMatch lonelywordStr = 0 ∧
    countMatches wordsMatch (lonelywordStr ++ [10]) = 1 ∧
    gutenberg_word_count lonelywordStr wordsStr noArgs = 1 := by decide

/-- C8: the code does not behave as the claim states.  With
`shortcodes = array( "gallery" )` the synthesized pattern string of line 64
has no PCRE delimiters (it begins with a backslash, which PHP rejects as a
delimiter), so the `preg_replace` of line 82 fails and returns null, every
later step then works on the empty string, and the count of
"before[gallery id=1]after" is 0 — not the 2 the claim states.  Had the
synthesized text been delimited as intended (as in the JS original), the
count would be 2. -/
theorem c8_shortcode_pattern_fails_to_compile :
    gutenberg_word_count beforeGalleryAfterStr wordsStr galleryArgs = 0 ∧
    countWithDelimitedShortcodes beforeGalleryAfterStr wordsStr [galleryStr] = 2 := by
  decide

/-- C9 counterexample: the claim fails on the code in two ways.  With
`shortcodes = array()` — empty, hence not "a non-empty shortcodes list" —
a shortcodes pattern is still synthesized (lines 62 to 65 test only that
the key is set to an array).  And the pattern is directly overridable: the
caller-supplied `shortcodes_regexp` of `qOverrideArgs`, given without any
`shortcodes` array, is used by the replacement step of lines 80 to 83, so
"aqb" counts 2 words instead of the 1 it counts when the step is
skipped. -/
theorem c9_counterexample :
    (resolvedShortcodesRegexp emptyShortcodesArgs).isSome = true ∧
    gutenberg_word_count aqbStr wordsStr qOverrideArgs = 2 ∧
    gutenberg_word_count aqbStr wordsStr noArgs = 1 := by decide

/-- C9 (amended): the derived shortcodes pattern is synthesized exactly
when the caller supplies a `shortcodes` array, empty or not, and then
overwrites any caller-supplied `shortcodes_regexp`; when no `shortcodes`
array is supplied the caller-supplied `shortcodes_regexp` override, if
any, is kept and used; when neither key is supplied no shortcodes pattern
exists, so the shortcode replacement step is skipped. -/
theorem c9_shortcodes_resolution (args : SettingsArgs) :
    (∀ names, args.shortcodes = some names →
      resolvedShortcodesRegexp args = some (Regexp.undelimited (shortcodeMatch names))) ∧
    (args.shortcodes = none →
      resolvedShortcodesRegexp args = args.shortcodes_regexp) ∧
    (args.shortcodes = none → args.shortcodes_regexp = none →
      resolvedShortcodesRegexp args = none) := by
  refine ⟨?_, ?_, ?_⟩
  · intro names h
    simp [resolvedShortcodesRegexp, wp_parse_args, h]
  · intro h
    simp [resolvedShortcodesRegexp, wp_parse_args, h]
  · intro h h2
    simp [resolvedShortcodesRegexp, wp_parse_args, h, h2]

/-- Witness for C9 (amended) at the gallery settings value. -/
theorem c9_witness :
    resolvedShortcodesRegexp galleryArgs =
      some (Regexp.undelimited (shortcodeMatch [galleryStr])) :=
  (c9_shortcodes_resolution galleryArgs).1 [galleryStr] rfl

/-- C10: the guard of line 56 tests PHP truthiness, not emptiness, and the
one-character string "0" is falsy in PHP, so for every count type and every
settings value the count of "0" is 0, although the string holds one word
and one non-space character. -/
theorem c10_zero_string_counts_zero (ty : Str) (args : SettingsArgs) :
    gutenberg_word_count [48] ty args = 0 := rfl
